import Mathlib

/-!
Shallow embedding of `src/app.py`, the Lonitor desktop system monitor.

Pure computations are translated directly.  Every effectful call into the
operating system (psutil reads, the thermal-zone file read, subprocess
invocations, `os.kill`, directory listing and deletion) is modelled by an
explicit outcome parameter: `Except String α` stands for a Python call that
either returns a value (`Except.ok`) or raises an exception whose string
rendering is the `Except.error` payload.  Numeric values that Python holds as
floats are modelled as `Rat`; every constant the program compares against
(60, 85, 1024 powers, 1000) is exactly representable, so the comparisons and
the divisions translate faithfully.  The mutable Qt widget state touched by
`EnhancedSysMonitor.update_stats` is modelled as the record `MonitorState`;
one timer tick is the function `update_stats`, which mirrors the Python
statement order, returning the state reached when the tick finishes or when
an uncaught exception aborts it (second component `some message`).
-/

namespace Lonitor

/-- Outcome of the `os.kill(pid, SIGTERM)` call in `kill_process`
(src/app.py lines 64-74): Python either succeeds, raises
`ProcessLookupError`, raises `PermissionError`, or raises some other
exception rendered as `msg`. -/
inductive KillResult where
  | ok
  | processLookupError
  | permissionError
  | otherError (msg : String)
  deriving DecidableEq

/-- Boolean success test for a modelled Python call outcome. -/
def exceptOk {α : Type} : Except String α → Bool
  | .ok _ => true
  | .error _ => false

/-- Result record of `psutil.virtual_memory()` (fields used by the program:
`percent`, `used`, `total`; byte counts as exact rationals). -/
structure MemInfo where
  percent : Rat
  used : Rat
  total : Rat
  deriving DecidableEq

/-- Result record of `psutil.disk_usage('/')` (byte counts). -/
structure DiskRaw where
  total : Rat
  used : Rat
  free : Rat
  percent : Rat
  deriving DecidableEq

/-- Result record of `psutil.net_io_counters()` (cumulative byte counts). -/
structure NetRaw where
  bytes_sent : Rat
  bytes_recv : Rat
  deriving DecidableEq

/-- Result record of `psutil.sensors_battery()` when a battery is present. -/
structure BatteryRaw where
  percent : Rat
  secsleft : Int
  power_plugged : Bool
  deriving DecidableEq

/-- Dictionary built by `get_network_info` (src/app.py lines 109-115):
cumulative counters converted to megabytes. -/
structure NetInfo where
  sent : Rat
  recv : Rat
  deriving DecidableEq

/-- Dictionary built by `get_disk_info` (src/app.py lines 99-107):
byte counts converted to gigabytes, percent passed through. -/
structure DiskInfo where
  total : Rat
  used : Rat
  free : Rat
  percent : Rat
  deriving DecidableEq

/-- Dictionary built by `get_battery_info` (src/app.py lines 76-97). -/
structure BatteryInfo where
  status : String
  percent : Rat
  time : String
  plugged : Bool
  deriving DecidableEq

/-- One row of `proc.info` from `psutil.process_iter` (src/app.py line 120). -/
structure ProcInfo where
  pid : Int
  name : String
  cpu_percent : Rat
  memory_percent : Rat
  deriving DecidableEq

/-- psutil sentinel `POWER_TIME_UNLIMITED`. -/
def POWER_TIME_UNLIMITED : Int := -2

/-- psutil sentinel `POWER_TIME_UNKNOWN`. -/
def POWER_TIME_UNKNOWN : Int := -1

/-- `get_cpu_temp` (src/app.py lines 20-27).  The whole read-and-parse of
`/sys/class/thermal/thermal_zone0/temp` sits inside one bare `try`, so it is
modelled as a single outcome `thermal_read`: `Except.ok n` is the parsed
integer file content, `Except.error` any raised exception (file missing,
unreadable, or unparsable).  The handler returns `0.0`. -/
def get_cpu_temp (thermal_read : Except String Int) : Rat :=
  match thermal_read with
  | .ok n => (n : Rat) / 1000
  | .error _ => 0

/-- `clear_ram_cache` (src/app.py lines 29-35): `subprocess.run(..., check=True)`
raises on any failure (non-zero exit becomes `CalledProcessError`, a missing
command `FileNotFoundError`, ...), and the `except Exception` handler converts
the exception into `(False, message)`. -/
def clear_ram_cache (run_outcome : Except String Unit) : Bool × String :=
  match run_outcome with
  | .ok _ => (true, "RAM cache cleared successfully!")
  | .error e => (false, s!"Failed to clear RAM cache: {e}")

/-- Environment of the effectful calls made by `clear_storage_cache`
(src/app.py lines 37-54): the `subprocess.run(..., check=False)` call
(`Except.ok exitCode`, or `Except.error` when the call itself raises),
the `os.path.exists` test on `~/.cache`, the `os.listdir` outcome, and the
per-item deletion outcome (`shutil.rmtree` / `os.remove`). -/
structure StorageEnv where
  rm_run : Except String Int
  cache_exists : Bool
  listdir : Except String (List String)
  delete_outcome : String → Except String Unit

/-- `clear_storage_cache` (src/app.py lines 37-54).  With `check=False` the
exit code of the `rm` command is ignored; each per-item deletion sits in an
inner `try ... except: pass`, so its outcome is computed and discarded; only
an exception escaping to the outer handler (from `subprocess.run` itself or
from `os.listdir`) produces `(False, message)`. -/
def clear_storage_cache (env : StorageEnv) : Bool × String :=
  match env.rm_run with
  | .error e => (false, s!"Failed to clear storage cache: {e}")
  | .ok _exit_code =>
    if env.cache_exists then
      match env.listdir with
      | .error e => (false, s!"Failed to clear storage cache: {e}")
      | .ok items =>
        let _ := items.map (fun item => (env.delete_outcome item).toOption)
        (true, "Storage caches cleared successfully!")
    else (true, "Storage caches cleared successfully!")

/-- `set_power_mode` (src/app.py lines 56-62). -/
def set_power_mode (mode : String) (run_outcome : Except String Unit) : Bool × String :=
  match run_outcome with
  | .ok _ => (true, s!"Power mode set to {mode}")
  | .error e => (false, s!"Failed to set power mode: {e}")

/-- `kill_process` (src/app.py lines 64-74). -/
def kill_process (pid : Int) (outcome : KillResult) : Bool × String :=
  match outcome with
  | .ok => (true, s!"Process {pid} terminated successfully")
  | .processLookupError => (false, s!"Process {pid} not found")
  | .permissionError => (false, s!"Permission denied to kill process {pid}")
  | .otherError e => (false, s!"Failed to kill process: {e}")

/-- `get_battery_info` (src/app.py lines 76-97), over the outcome of
`psutil.sensors_battery()`: `ok none` models the no-battery `None` result,
an exception from the sensor read propagates. -/
def get_battery_info (sensors : Except String (Option BatteryRaw)) :
    Except String (Option BatteryInfo) :=
  match sensors with
  | .error e => .error e
  | .ok none => .ok none
  | .ok (some battery) =>
    let charging := if battery.power_plugged then "Charging" else "Discharging"
    let time_str :=
      if battery.secsleft = POWER_TIME_UNLIMITED then "Plugged In"
      else if battery.secsleft = POWER_TIME_UNKNOWN then "Calculating..."
      else
        let hrs := battery.secsleft.fdiv 3600
        let mins := (battery.secsleft.fmod 3600).fdiv 60
        s!"{hrs}h {mins}m"
    .ok (some { status := charging, percent := battery.percent,
                time := time_str, plugged := battery.power_plugged })

/-- `get_disk_info` (src/app.py lines 99-107). -/
def get_disk_info (usage : Except String DiskRaw) : Except String DiskInfo :=
  usage.map (fun u =>
    { total := u.total / 1024 ^ 3, used := u.used / 1024 ^ 3,
      free := u.free / 1024 ^ 3, percent := u.percent })

/-- Conversion of raw network counters to the megabyte dictionary of
`get_network_info` (src/app.py lines 109-115). -/
def net_info_of (net : NetRaw) : NetInfo :=
  { sent := net.bytes_sent / 1024 ^ 2, recv := net.bytes_recv / 1024 ^ 2 }

/-- `get_network_info` (src/app.py lines 109-115). -/
def get_network_info (counters : Except String NetRaw) : Except String NetInfo :=
  counters.map net_info_of

/-- Stable insertion of a process into a list kept in descending
`cpu_percent` order: the element passes every entry with a key that is not
strictly smaller, so equal keys keep their original relative order, as
Python's stable `sorted(..., reverse=True)` guarantees. -/
def insertByCpu (p : ProcInfo) : List ProcInfo → List ProcInfo
  | [] => [p]
  | q :: qs => if q.cpu_percent < p.cpu_percent then p :: q :: qs else q :: insertByCpu p qs

/-- Stable descending sort by `cpu_percent`, modelling
`sorted(processes, key=lambda x: x['cpu_percent'], reverse=True)`. -/
def sortByCpuDesc (l : List ProcInfo) : List ProcInfo :=
  l.foldl (fun acc p => insertByCpu p acc) []

/-- `get_top_processes` (src/app.py lines 117-125): the iteration outcome is
`proc_iter`; each element models one `proc.info` access, whose failure is
swallowed by the inner `try ... except: pass` (hence `filterMap`). -/
def get_top_processes (proc_iter : Except String (List (Except String ProcInfo)))
    (limit : Nat) : Except String (List ProcInfo) :=
  proc_iter.map (fun procs =>
    (sortByCpuDesc (procs.filterMap Except.toOption)).take limit)

/-- `StyledProgressBar.update_color` (src/app.py lines 173-194), reduced to
the chunk color it selects. -/
def update_color (value : Rat) : String :=
  if value < 60 then "#4CAF50"
  else if value < 85 then "#FF9800"
  else "#F44336"

/-- The three color bands the specification names; green is "nominal",
orange "elevated", red "critical". -/
inductive Band where
  | nominal
  | elevated
  | critical
  deriving DecidableEq

/-- Band of a value, read off from the color `update_color` selects. -/
def band (value : Rat) : Band :=
  if update_color value = "#4CAF50" then .nominal
  else if update_color value = "#FF9800" then .elevated
  else .critical

/-- The battery bar argument of line 654:
`100 - battery_info['percent'] if not battery_info['plugged'] else 0`. -/
def battery_monitored (percent : Rat) (plugged : Bool) : Rat :=
  if !plugged then 100 - percent else 0

/-- `log_message` (src/app.py lines 746-749): appends one timestamped line
to the action log. -/
def log_message (log : List String) (timestamp message : String) : List String :=
  log ++ [s!"[{timestamp}] {message}"]

/-- The confirmed branch of `kill_selected_process` (src/app.py lines
710-716): call `kill_process`, then log its message. -/
def kill_selected_process (log : List String) (timestamp : String) (pid : Int)
    (outcome : KillResult) : (Bool × String) × List String :=
  let result := kill_process pid outcome
  (result, log_message log timestamp result.2)

/-- One point of a `QLineSeries`: `series.append(self.x, value)`. -/
structure SeriesPoint where
  x : Nat
  y : Rat
  deriving DecidableEq

/-- Python `int()` on a float: truncation toward zero. -/
def pyInt (q : Rat) : Int :=
  q.num.tdiv (q.den : Int)

/-- The mutable state of `EnhancedSysMonitor` that `update_stats` touches:
the tick counter `x`, the two chart series, the network baseline captured in
`__init__`, and the numeric/color display state handed to the widgets (text
formatting aside, each field holds the value passed to the widget). -/
structure MonitorState where
  x : Nat
  cpu_series : List SeriesPoint
  ram_series : List SeriesPoint
  network_baseline : NetInfo
  cpuShown : Rat
  tempShown : Rat
  cpuBarValue : Int
  cpuBarColor : String
  ramShown : Rat
  ramUsedShown : Rat
  ramTotalShown : Rat
  ramBarValue : Int
  ramBarColor : String
  diskUsedShown : Rat
  diskTotalShown : Rat
  diskBarValue : Int
  diskBarColor : String
  netSentShown : Rat
  netRecvShown : Rat
  batteryShown : Option (String × Rat)
  batteryBarValue : Int
  batteryBarColor : String
  uptimeShown : Int × Int
  axisLow : Nat
  axisHigh : Nat
  processTable : List ProcInfo
  deriving DecidableEq

/-- The outcomes of every OS call one `update_stats` tick performs
(src/app.py lines 611-690), in source order. -/
structure Env where
  cpu_percent : Except String Rat
  virtual_memory : Except String MemInfo
  thermal_read : Except String Int
  sensors_battery : Except String (Option BatteryRaw)
  disk_usage : Except String DiskRaw
  net_io : Except String NetRaw
  process_iter : Except String (List (Except String ProcInfo))
  now_timestamp : Rat
  boot_time : Rat

/-- State built by `EnhancedSysMonitor.__init__` (src/app.py lines 236-248):
`x = 0`, empty series, the network baseline captured from the first
`get_network_info()` read, widgets at their construction defaults
(bars green, axis range 0..60). -/
def init_state (first_net : NetRaw) : MonitorState :=
  { x := 0
    cpu_series := []
    ram_series := []
    network_baseline := net_info_of first_net
    cpuShown := 0, tempShown := 0, cpuBarValue := 0, cpuBarColor := "#4CAF50"
    ramShown := 0, ramUsedShown := 0, ramTotalShown := 0
    ramBarValue := 0, ramBarColor := "#4CAF50"
    diskUsedShown := 0, diskTotalShown := 0, diskBarValue := 0, diskBarColor := "#4CAF50"
    netSentShown := 0, netRecvShown := 0
    batteryShown := none, batteryBarValue := 0, batteryBarColor := "#4CAF50"
    uptimeShown := (0, 0)
    axisLow := 0, axisHigh := 60
    processTable := [] }

/-- `EnhancedSysMonitor.update_stats` (src/app.py lines 611-679, plus the
`update_process_table` call it ends with).  The six source reads happen
first, in source order; an exception aborts the tick at that point, leaving
the state as mutated so far (Python has no handler here).  Only the
temperature read is internally protected (`get_cpu_temp`), and a `None`
battery takes the no-battery branch.  The returned `Option String` is
`none` for a completed tick, `some message` for an aborting exception. -/
def update_stats (env : Env) (s : MonitorState) : MonitorState × Option String :=
  match env.cpu_percent with
  | .error e => (s, some e)
  | .ok cpu =>
  match env.virtual_memory with
  | .error e => (s, some e)
  | .ok ram_info =>
  let temp := get_cpu_temp env.thermal_read
  match get_battery_info env.sensors_battery with
  | .error e => (s, some e)
  | .ok battery_info =>
  match get_disk_info env.disk_usage with
  | .error e => (s, some e)
  | .ok disk_info =>
  match get_network_info env.net_io with
  | .error e => (s, some e)
  | .ok network_info =>
  let s1 := { s with cpuShown := cpu, tempShown := temp,
                     cpuBarValue := pyInt cpu, cpuBarColor := update_color cpu }
  let ram_percent := ram_info.percent
  let s2 := { s1 with ramShown := ram_percent,
                      ramUsedShown := ram_info.used / 1024 ^ 3,
                      ramTotalShown := ram_info.total / 1024 ^ 3,
                      ramBarValue := pyInt ram_percent,
                      ramBarColor := update_color ram_percent }
  let s3 := { s2 with diskUsedShown := disk_info.used,
                      diskTotalShown := disk_info.total,
                      diskBarValue := pyInt disk_info.percent,
                      diskBarColor := update_color disk_info.percent }
  let s4 := { s3 with netSentShown := network_info.sent - s.network_baseline.sent,
                      netRecvShown := network_info.recv - s.network_baseline.recv }
  let s5 :=
    match battery_info with
    | some b =>
      { s4 with batteryShown := some (b.status, b.percent),
                batteryBarValue := pyInt b.percent,
                batteryBarColor := update_color (battery_monitored b.percent b.plugged) }
    | none => { s4 with batteryShown := none, batteryBarValue := 0 }
  let uptime_seconds := pyInt (env.now_timestamp - env.boot_time)
  let s6 := { s5 with uptimeShown := (uptime_seconds.fdiv 3600,
                                      (uptime_seconds.fmod 3600).fdiv 60) }
  let cpu_appended := s6.cpu_series ++ [(⟨s6.x, cpu⟩ : SeriesPoint)]
  let ram_appended := s6.ram_series ++ [(⟨s6.x, ram_percent⟩ : SeriesPoint)]
  let s7 := { s6 with cpu_series := cpu_appended, ram_series := ram_appended }
  let s8 := { s7 with x := s7.x + 1 }
  let cpu_trimmed := if cpu_appended.length > 60 then cpu_appended.drop 1 else cpu_appended
  let ram_trimmed := if ram_appended.length > 60 then ram_appended.drop 1 else ram_appended
  let s10 := { s8 with cpu_series := cpu_trimmed, ram_series := ram_trimmed }
  let s11 := { s10 with axisLow := max 0 (s10.x - 60), axisHigh := s10.x }
  match get_top_processes env.process_iter 10 with
  | .error e => (s11, some e)
  | .ok procs => ({ s11 with processTable := procs }, none)

/-- Net effect of lines 666-673 on one series: append the point, then
remove the head when the count exceeds 60. -/
def seriesStep (l : List SeriesPoint) (x : Nat) (v : Rat) : List SeriesPoint :=
  let appended := l ++ [{ x := x, y := v }]
  if appended.length > 60 then appended.drop 1 else appended

/-- A tick whose six source reads all succeed. -/
def envOk (e : Env) : Bool :=
  exceptOk e.cpu_percent && exceptOk e.virtual_memory && exceptOk e.sensors_battery &&
    exceptOk e.disk_usage && exceptOk e.net_io && exceptOk e.process_iter

/-- Iterated ticks of the 1000 ms timer: fold `update_stats` over the
per-tick environments. -/
def runTicks (envs : List Env) (s : MonitorState) : MonitorState :=
  envs.foldl (fun st e => (update_stats e st).1) s

/-- Chart invariant maintained between ticks: each series has
`min x 60` points whose tick-indices are the consecutive range ending at
`x - 1` (so the window starts at `x - 60`, truncated at zero). -/
def chartOk (s : MonitorState) : Prop :=
  s.cpu_series.length = min s.x 60 ∧
  s.ram_series.length = min s.x 60 ∧
  s.cpu_series.map SeriesPoint.x = List.range' (s.x - 60) (min s.x 60) ∧
  s.ram_series.map SeriesPoint.x = List.range' (s.x - 60) (min s.x 60)

/-- A fully successful sample environment used to instantiate theorems. -/
def sampleEnv : Env :=
  { cpu_percent := .ok 25
    virtual_memory := .ok ⟨40, 4 * 1024 ^ 3, 8 * 1024 ^ 3⟩
    thermal_read := .ok 45000
    sensors_battery := .ok (some ⟨80, 3600, true⟩)
    disk_usage := .ok ⟨500 * 1024 ^ 3, 200 * 1024 ^ 3, 300 * 1024 ^ 3, 40⟩
    net_io := .ok ⟨3 * 1024 ^ 2, 5 * 1024 ^ 2⟩
    process_iter := .ok []
    now_timestamp := 100000
    boot_time := 90000 }

/-- A tick environment whose disk read raises while every other source is
healthy (network counters at 2 MB sent / 1 MB received, CPU at 50%). -/
def diskFailEnv : Env :=
  { cpu_percent := .ok 50
    virtual_memory := .ok ⟨40, 0, 0⟩
    thermal_read := .ok 45000
    sensors_battery := .ok none
    disk_usage := .error "disk unavailable"
    net_io := .ok ⟨2 * 1024 ^ 2, 1024 ^ 2⟩
    process_iter := .ok []
    now_timestamp := 0
    boot_time := 0 }

/-! ## Helper lemmas -/

/-- Full characterization of one tick whose six source reads succeed:
`update_stats` completes (`none`) and each display field is the value the
source order of lines 611-690 assigns to it. -/
lemma update_stats_ok (cpu : Rat) (mi : MemInfo) (tr : Except String Int)
    (ob : Option BatteryRaw) (du : DiskRaw) (nr : NetRaw)
    (pr : List (Except String ProcInfo)) (nt bt : Rat) (s : MonitorState) :
    update_stats (Env.mk (.ok cpu) (.ok mi) tr (.ok ob) (.ok du) (.ok nr) (.ok pr) nt bt) s =
      ({ x := s.x + 1
         cpu_series := seriesStep s.cpu_series s.x cpu
         ram_series := seriesStep s.ram_series s.x mi.percent
         network_baseline := s.network_baseline
         cpuShown := cpu
         tempShown := get_cpu_temp tr
         cpuBarValue := pyInt cpu
         cpuBarColor := update_color cpu
         ramShown := mi.percent
         ramUsedShown := mi.used / 1024 ^ 3
         ramTotalShown := mi.total / 1024 ^ 3
         ramBarValue := pyInt mi.percent
         ramBarColor := update_color mi.percent
         diskUsedShown := du.used / 1024 ^ 3
         diskTotalShown := du.total / 1024 ^ 3
         diskBarValue := pyInt du.percent
         diskBarColor := update_color du.percent
         netSentShown := nr.bytes_sent / 1024 ^ 2 - s.network_baseline.sent
         netRecvShown := nr.bytes_recv / 1024 ^ 2 - s.network_baseline.recv
         batteryShown := match ob with
           | some b => some ((if b.power_plugged then "Charging" else "Discharging"), b.percent)
           | none => none
         batteryBarValue := match ob with | some b => pyInt b.percent | none => 0
         batteryBarColor := match ob with
           | some b => update_color (battery_monitored b.percent b.power_plugged)
           | none => s.batteryBarColor
         uptimeShown := ((pyInt (nt - bt)).fdiv 3600, ((pyInt (nt - bt)).fmod 3600).fdiv 60)
         axisLow := max 0 (s.x + 1 - 60)
         axisHigh := s.x + 1
         processTable := (sortByCpuDesc (pr.filterMap Except.toOption)).take 10 }, none) := by
  cases ob with
  | none =>
    dsimp only [update_stats, get_battery_info, get_disk_info, get_network_info,
      get_top_processes, net_info_of, Except.map, seriesStep, battery_monitored]
  | some b =>
    dsimp only [update_stats, get_battery_info, get_disk_info, get_network_info,
      get_top_processes, net_info_of, Except.map, seriesStep, battery_monitored]

/-- Length effect of one series step, while at most 60 points are held. -/
lemma seriesStep_length (l : List SeriesPoint) (x : Nat) (v : Rat)
    (h : l.length <= 60) :
    (seriesStep l x v).length = min (l.length + 1) 60 := by
  simp only [seriesStep]
  split <;> simp_all <;> omega

/-- Tick-index effect of one series step: appending index `x` to the
consecutive window ending at `x - 1` and trimming yields the consecutive
window ending at `x`. -/
lemma seriesStep_map_x (l : List SeriesPoint) (x : Nat) (v : Rat)
    (hlen : l.length = min x 60)
    (hmap : l.map SeriesPoint.x = List.range' (x - 60) (min x 60)) :
    (seriesStep l x v).map SeriesPoint.x
      = List.range' (x + 1 - 60) (min (x + 1) 60) := by
  have hxmap : (l ++ [(⟨x, v⟩ : SeriesPoint)]).map SeriesPoint.x
      = List.range' (x - 60) (min x 60) ++ [x] := by
    simp [hmap]
  simp only [seriesStep]
  by_cases hc : (l ++ [(⟨x, v⟩ : SeriesPoint)]).length > 60
  · have hx60 : 60 <= x := by
      simp at hc; omega
    have hmin : min x 60 = 60 := by omega
    have hcat : List.range' (x - 60) (min x 60) ++ [x]
        = List.range' (x - 60) 61 := by
      rw [hmin]
      have := List.range'_1_concat (x - 60) 60
      rw [this]
      congr 1
      simp
      omega
    rw [if_pos hc]
    rw [List.map_drop, hxmap, hcat]
    rw [List.range'_succ]
    simp
    constructor
    · omega
    · omega
  · have hx60 : x < 60 := by
      simp at hc; omega
    have hmin : min x 60 = x := by omega
    have hx0 : x - 60 = 0 := by omega
    rw [if_neg hc]
    rw [hxmap, hmin, hx0]
    have := List.range'_1_concat 0 x
    simp at this
    rw [← this]
    congr 1 <;> omega

/-- One successful tick advances `x` by one and keeps the chart invariant. -/
lemma update_stats_chartOk (e : Env) (s : MonitorState)
    (he : envOk e = true) (hs : chartOk s) :
    chartOk (update_stats e s).1 ∧ (update_stats e s).1.x = s.x + 1 := by
  obtain ⟨cp, vm, tr, sb, du, ni, pi, nt, bt⟩ := e
  obtain ⟨hc, hr, hcm, hrm⟩ := hs
  cases cp with
  | error msg => simp [envOk, exceptOk] at he
  | ok cpu =>
  cases vm with
  | error msg => simp [envOk, exceptOk] at he
  | ok mi =>
  cases sb with
  | error msg => simp [envOk, exceptOk] at he
  | ok ob =>
  cases du with
  | error msg => simp [envOk, exceptOk] at he
  | ok d =>
  cases ni with
  | error msg => simp [envOk, exceptOk] at he
  | ok n =>
  cases pi with
  | error msg => simp [envOk, exceptOk] at he
  | ok pr =>
  rw [update_stats_ok]
  refine ⟨⟨?_, ?_, ?_, ?_⟩, rfl⟩ <;> dsimp only [chartOk]
  · rw [seriesStep_length _ _ _ (by omega)]
    omega
  · rw [seriesStep_length _ _ _ (by omega)]
    omega
  · exact seriesStep_map_x _ _ _ hc hcm
  · exact seriesStep_map_x _ _ _ hr hrm

/-- Any number of successful ticks keeps the chart invariant and advances
`x` by the number of ticks. -/
lemma runTicks_chartOk (envs : List Env) (s : MonitorState)
    (hok : ∀ e ∈ envs, envOk e = true) (hs : chartOk s) :
    chartOk (runTicks envs s) ∧ (runTicks envs s).x = s.x + envs.length := by
  induction envs generalizing s with
  | nil => simpa [runTicks]
  | cons e rest ih =>
    have he : envOk e = true := hok e (by simp)
    have hstep := update_stats_chartOk e s he hs
    have hrest := ih ((update_stats e s).1)
      (fun e2 he2 => hok e2 (by simp [he2])) hstep.1
    simp only [runTicks, List.foldl_cons] at hrest ⊢
    refine ⟨hrest.1, ?_⟩
    rw [hrest.2, hstep.2]
    simp [Nat.add_assoc, Nat.add_comm 1]

/-- The constructed state satisfies the chart invariant. -/
lemma init_state_chartOk (first_net : NetRaw) : chartOk (init_state first_net) := by
  simp [chartOk, init_state]

/-! ## Claim theorems -/

/-- C1: for every tick count T ≥ 0, after T+1 successful samples the CPU and
RAM history series each have length exactly `min (T+1) 60`, and after any
number of ticks (any prefix) a series never exceeds 60 points between
ticks. -/
theorem rolling_series_length (T : Nat) (envs : List Env) (first_net : NetRaw)
    (hlen : envs.length = T + 1) (hok : ∀ e ∈ envs, envOk e = true) :
    (runTicks envs (init_state first_net)).cpu_series.length = min (T + 1) 60 ∧
    (runTicks envs (init_state first_net)).ram_series.length = min (T + 1) 60 ∧
    ∀ k : Nat,
      (runTicks (envs.take k) (init_state first_net)).cpu_series.length <= 60 ∧
      (runTicks (envs.take k) (init_state first_net)).ram_series.length <= 60 := by
  obtain ⟨⟨hc, hr, hcm, hrm⟩, hx⟩ :=
    runTicks_chartOk envs (init_state first_net) hok (init_state_chartOk first_net)
  have hx2 : (runTicks envs (init_state first_net)).x = T + 1 := by
    rw [hx]; simp [init_state, hlen]
  refine ⟨by rw [hc, hx2], by rw [hr, hx2], ?_⟩
  intro k
  have hok2 : ∀ e ∈ envs.take k, envOk e = true :=
    fun e he => hok e (List.take_subset k envs he)
  obtain ⟨⟨hc2, hr2, hcm2, hrm2⟩, hx3⟩ :=
    runTicks_chartOk (envs.take k) (init_state first_net) hok2 (init_state_chartOk first_net)
  constructor
  · rw [hc2]; omega
  · rw [hr2]; omega

/-- Witness for C1: three concrete successful ticks leave exactly
`min 3 60 = 3` points in each series. -/
theorem rolling_series_length_witness :
    (List.replicate 3 sampleEnv).length = 2 + 1 ∧
    (runTicks (List.replicate 3 sampleEnv) (init_state ⟨0, 0⟩)).cpu_series.length
        = min (2 + 1) 60 ∧
    (runTicks (List.replicate 3 sampleEnv) (init_state ⟨0, 0⟩)).ram_series.length
        = min (2 + 1) 60 :=
  ⟨by decide,
   (rolling_series_length 2 (List.replicate 3 sampleEnv) ⟨0, 0⟩ (by decide) (by decide)).1,
   (rolling_series_length 2 (List.replicate 3 sampleEnv) ⟨0, 0⟩ (by decide) (by decide)).2.1⟩

/-- C2: eviction is remove-at-head.  Once more than 60 samples are recorded,
the oldest retained tick-index is `current_tick - 59` (the current, newest
tick-index being `envs.length - 1`); in particular after 61 ticks each series
holds exactly the samples of ticks 1..60. -/
theorem rolling_eviction_head (envs : List Env) (first_net : NetRaw)
    (hlen : 60 < envs.length) (hok : ∀ e ∈ envs, envOk e = true) :
    ((runTicks envs (init_state first_net)).cpu_series.map SeriesPoint.x).head?
        = some (envs.length - 1 - 59) ∧
    ((runTicks envs (init_state first_net)).ram_series.map SeriesPoint.x).head?
        = some (envs.length - 1 - 59) ∧
    (envs.length = 61 →
      (runTicks envs (init_state first_net)).cpu_series.map SeriesPoint.x
          = List.range' 1 60 ∧
      (runTicks envs (init_state first_net)).ram_series.map SeriesPoint.x
          = List.range' 1 60) := by
  obtain ⟨⟨hc, hr, hcm, hrm⟩, hx⟩ :=
    runTicks_chartOk envs (init_state first_net) hok (init_state_chartOk first_net)
  have hx2 : (runTicks envs (init_state first_net)).x = envs.length := by
    rw [hx]; simp [init_state]
  rw [hx2] at hcm hrm
  have hmin : min envs.length 60 = 60 := by omega
  rw [hmin] at hcm hrm
  have hhead : (List.range' (envs.length - 60) 60).head? = some (envs.length - 60) := by
    rw [List.head?_range']; simp
  have h59 : envs.length - 60 = envs.length - 1 - 59 := by omega
  refine ⟨by rw [hcm, hhead, h59], by rw [hrm, hhead, h59], ?_⟩
  intro h61
  rw [h61] at hcm hrm
  exact ⟨by rw [hcm], by rw [hrm]⟩

/-- Witness for C2: 61 concrete successful ticks; the oldest retained
tick-index is 1 = 60 - 59. -/
theorem rolling_eviction_head_witness :
    60 < (List.replicate 61 sampleEnv).length ∧
    ((runTicks (List.replicate 61 sampleEnv) (init_state ⟨0, 0⟩)).cpu_series.map
        SeriesPoint.x).head? = some ((List.replicate 61 sampleEnv).length - 1 - 59) ∧
    ((runTicks (List.replicate 61 sampleEnv) (init_state ⟨0, 0⟩)).ram_series.map
        SeriesPoint.x).head? = some ((List.replicate 61 sampleEnv).length - 1 - 59) :=
  ⟨by decide,
   (rolling_eviction_head (List.replicate 61 sampleEnv) ⟨0, 0⟩ (by decide) (by decide)).1,
   (rolling_eviction_head (List.replicate 61 sampleEnv) ⟨0, 0⟩ (by decide) (by decide)).2.1⟩

/-- C3: color-band selection is a pure function of the value with
thresholds 60 and 85: below 60 nominal (green), from 60 below 85 elevated
(orange), from 85 critical (red); in particular band(59.9) is nominal,
band(60) and band(84.9) elevated, band(85) critical. -/
theorem color_band_policy :
    (∀ v : Rat,
      (v < 60 ↔ band v = Band.nominal) ∧
      ((60 <= v ∧ v < 85) ↔ band v = Band.elevated) ∧
      (85 <= v ↔ band v = Band.critical)) ∧
    band (599 / 10) = Band.nominal ∧ band 60 = Band.elevated ∧
    band (849 / 10) = Band.elevated ∧ band 85 = Band.critical := by
  have hconc : ∀ w : Rat, update_color w = "#4CAF50" → band w = Band.nominal := by
    intro w hw; unfold band; rw [hw]; decide
  have hconc2 : ∀ w : Rat, update_color w = "#FF9800" → band w = Band.elevated := by
    intro w hw; unfold band; rw [hw]; decide
  have hconc3 : ∀ w : Rat, update_color w = "#F44336" → band w = Band.critical := by
    intro w hw; unfold band; rw [hw]; decide
  refine ⟨?_, hconc _ (by norm_num [update_color]), hconc2 _ (by norm_num [update_color]),
    hconc2 _ (by norm_num [update_color]), hconc3 _ (by norm_num [update_color])⟩
  intro v
  rcases lt_or_le v 60 with h1 | h1
  · have hcol : update_color v = "#4CAF50" := by simp [update_color, h1]
    have hband : band v = Band.nominal := by unfold band; rw [hcol]; decide
    refine ⟨iff_of_true h1 hband, iff_of_false ?_ ?_, iff_of_false ?_ ?_⟩
    · rintro ⟨h2, h3⟩; linarith
    · rw [hband]; intro h; exact Band.noConfusion h
    · intro h2; linarith
    · rw [hband]; intro h; exact Band.noConfusion h
  · rcases lt_or_le v 85 with h2 | h2
    · have hcol : update_color v = "#FF9800" := by
        simp [update_color, not_lt.mpr h1, h2]
      have hband : band v = Band.elevated := by unfold band; rw [hcol]; decide
      refine ⟨iff_of_false ?_ ?_, iff_of_true ⟨h1, h2⟩ hband, iff_of_false ?_ ?_⟩
      · intro h3; linarith
      · rw [hband]; intro h; exact Band.noConfusion h
      · intro h3; linarith
      · rw [hband]; intro h; exact Band.noConfusion h
    · have hcol : update_color v = "#F44336" := by
        simp [update_color, not_lt.mpr h1, not_lt.mpr h2]
      have hband : band v = Band.critical := by unfold band; rw [hcol]; decide
      refine ⟨iff_of_false ?_ ?_, iff_of_false ?_ ?_, iff_of_true h2 hband⟩
      · intro h3; linarith
      · rw [hband]; intro h; exact Band.noConfusion h
      · rintro ⟨h3, h4⟩; linarith
      · rw [hband]; intro h; exact Band.noConfusion h

/-- C4 counterexample: with every source healthy except the disk read, the
tick aborts (`some` error), the state is left exactly as it was, and in
particular the network figures are not updated (the counters stand at 2 MB
sent while the display still shows 0) and the CPU display still shows 0
rather than the fresh 50% reading.  So a failure in a single metric source
other than temperature does prevent the remaining sources from updating. -/
theorem tick_aborted_by_disk_failure :
    (update_stats diskFailEnv (init_state ⟨0, 0⟩)).2 = some "disk unavailable" ∧
    (update_stats diskFailEnv (init_state ⟨0, 0⟩)).1 = init_state ⟨0, 0⟩ ∧
    (update_stats diskFailEnv (init_state ⟨0, 0⟩)).1.netSentShown = 0 ∧
    (update_stats diskFailEnv (init_state ⟨0, 0⟩)).1.cpuShown = 0 :=
  ⟨rfl, rfl, rfl, rfl⟩

/-- C4 (amended): only the temperature source is protected — for any
thermal-read outcome, including failure, a tick whose other sources are
readable completes and updates every metric's display state (battery
absence likewise takes the no-battery branch); but a raised exception in
any of the six other sources aborts the tick at that point, leaving the
state as mutated so far: a CPU, memory, battery-sensor, disk, or network
exception aborts before any display update, and a process-list exception
aborts after the metric displays but before the process table is
refreshed. -/
theorem partial_tolerance_amended (cpu : Rat) (mi : MemInfo) (tr : Except String Int)
    (ob : Option BatteryRaw) (du : DiskRaw) (nr : NetRaw)
    (pr : List (Except String ProcInfo)) (nt bt : Rat) (s : MonitorState) (err : String) :
    (update_stats (Env.mk (.ok cpu) (.ok mi) tr (.ok ob) (.ok du) (.ok nr) (.ok pr) nt bt) s).2
        = none ∧
    (update_stats (Env.mk (.ok cpu) (.ok mi) tr (.ok ob) (.ok du) (.ok nr) (.ok pr) nt bt)
        s).1.tempShown = get_cpu_temp tr ∧
    (update_stats (Env.mk (.ok cpu) (.ok mi) tr (.ok ob) (.ok du) (.ok nr) (.ok pr) nt bt)
        s).1.cpuShown = cpu ∧
    (update_stats (Env.mk (.ok cpu) (.ok mi) tr (.ok ob) (.ok du) (.ok nr) (.ok pr) nt bt)
        s).1.ramShown = mi.percent ∧
    (update_stats (Env.mk (.ok cpu) (.ok mi) tr (.ok ob) (.ok du) (.ok nr) (.ok pr) nt bt)
        s).1.diskUsedShown = du.used / 1024 ^ 3 ∧
    (update_stats (Env.mk (.ok cpu) (.ok mi) tr (.ok ob) (.ok du) (.ok nr) (.ok pr) nt bt)
        s).1.netSentShown = nr.bytes_sent / 1024 ^ 2 - s.network_baseline.sent ∧
    (update_stats (Env.mk (.ok cpu) (.ok mi) tr (.ok ob) (.ok du) (.ok nr) (.ok pr) nt bt)
        s).1.batteryShown = (match ob with
          | some b => some ((if b.power_plugged then "Charging" else "Discharging"), b.percent)
          | none => none) ∧
    (update_stats (Env.mk (.ok cpu) (.ok mi) tr (.ok ob) (.ok du) (.ok nr) (.ok pr) nt bt)
        s).1.processTable = (sortByCpuDesc (pr.filterMap Except.toOption)).take 10 ∧
    update_stats (Env.mk (.error err) (.ok mi) tr (.ok ob) (.ok du) (.ok nr) (.ok pr) nt bt) s
        = (s, some err) ∧
    update_stats (Env.mk (.ok cpu) (.error err) tr (.ok ob) (.ok du) (.ok nr) (.ok pr) nt bt) s
        = (s, some err) ∧
    update_stats (Env.mk (.ok cpu) (.ok mi) tr (.error err) (.ok du) (.ok nr) (.ok pr) nt bt) s
        = (s, some err) ∧
    update_stats (Env.mk (.ok cpu) (.ok mi) tr (.ok ob) (.error err) (.ok nr) (.ok pr) nt bt) s
        = (s, some err) ∧
    update_stats (Env.mk (.ok cpu) (.ok mi) tr (.ok ob) (.ok du) (.error err) (.ok pr) nt bt) s
        = (s, some err) ∧
    (update_stats (Env.mk (.ok cpu) (.ok mi) tr (.ok ob) (.ok du) (.ok nr) (.error err) nt bt)
        s).2 = some err ∧
    (update_stats (Env.mk (.ok cpu) (.ok mi) tr (.ok ob) (.ok du) (.ok nr) (.error err) nt bt)
        s).1.processTable = s.processTable ∧
    (update_stats (Env.mk (.ok cpu) (.ok mi) tr (.ok ob) (.ok du) (.ok nr) (.error err) nt bt)
        s).1.cpuShown = cpu := by
  cases ob with
  | none =>
    rw [update_stats_ok]
    exact ⟨rfl, rfl, rfl, rfl, rfl, rfl, rfl, rfl, rfl, rfl, rfl, rfl, rfl, rfl, rfl, rfl⟩
  | some b =>
    rw [update_stats_ok]
    exact ⟨rfl, rfl, rfl, rfl, rfl, rfl, rfl, rfl, rfl, rfl, rfl, rfl, rfl, rfl, rfl, rfl⟩

/-- C5 counterexample: the `rm` command of `clear_storage_cache` exits with
status 1 (a failure of the underlying command) and every per-item deletion
raises, yet the function reports `(true, success-message)` — so not every
underlying-command failure is reported as `ok = false`. -/
theorem storage_failure_reported_ok :
    clear_storage_cache
        { rm_run := Except.ok 1, cache_exists := true,
          listdir := Except.ok ["chromium"],
          delete_outcome := fun _ => Except.error "Permission denied" }
      = (true, "Storage caches cleared successfully!") := rfl

/-- C5 (amended): all four privileged actions always return an `(ok,
message)` pair (they are total functions of the call outcomes, no exception
escapes); `clear_ram_cache` and `set_power_mode` report success exactly when
their subprocess call succeeds and render any failure as an `ok = false`
message; `kill_process` reports `ok = true` exactly on success; but
`clear_storage_cache` succeeds whenever its subprocess invocation and the
cache-directory listing do not raise — the command's exit status and
per-item deletion failures are silently discarded. -/
theorem privileged_actions_amended :
    (∀ r : Except String Unit, (clear_ram_cache r).1 = exceptOk r) ∧
    (∀ e : String, clear_ram_cache (Except.error e)
        = (false, s!"Failed to clear RAM cache: {e}")) ∧
    (∀ mode : String, ∀ r : Except String Unit, (set_power_mode mode r).1 = exceptOk r) ∧
    (∀ mode e : String, set_power_mode mode (Except.error e)
        = (false, s!"Failed to set power mode: {e}")) ∧
    (∀ (pid : Int) (outcome : KillResult),
        ((kill_process pid outcome).1 = true ↔ outcome = KillResult.ok)) ∧
    (∀ env : StorageEnv,
        (clear_storage_cache env).1
          = (exceptOk env.rm_run && (!env.cache_exists || exceptOk env.listdir))) := by
  refine ⟨?_, fun e => rfl, ?_, fun mode e => rfl, ?_, ?_⟩
  · intro r; cases r <;> rfl
  · intro mode r; cases r <;> rfl
  · intro pid outcome
    cases outcome with
    | ok => simp [kill_process]
    | processLookupError =>
      exact iff_of_false (by simp [kill_process]) (fun h => KillResult.noConfusion h)
    | permissionError =>
      exact iff_of_false (by simp [kill_process]) (fun h => KillResult.noConfusion h)
    | otherError msg =>
      exact iff_of_false (by simp [kill_process]) (fun h => KillResult.noConfusion h)
  · intro env
    obtain ⟨rm, ce, ld, del⟩ := env
    cases rm <;> cases ce <;> cases ld <;> rfl

/-- C6: the network baseline is the `get_network_info` value captured at
construction; `update_stats` never mutates it (for every environment,
failing or not); every completed tick displays exactly
`current counter in MB - baseline`, per direction; and across any two ticks
the displayed deltas are monotonically non-decreasing whenever the
underlying cumulative counters do not decrease. -/
theorem network_baseline_delta :
    (∀ first_net : NetRaw,
        (init_state first_net).network_baseline = net_info_of first_net) ∧
    (∀ (env : Env) (s : MonitorState),
        (update_stats env s).1.network_baseline = s.network_baseline) ∧
    (∀ (cpu : Rat) (mi : MemInfo) (tr : Except String Int) (ob : Option BatteryRaw)
        (du : DiskRaw) (nr : NetRaw) (pr : List (Except String ProcInfo))
        (nt bt : Rat) (s : MonitorState),
        (update_stats (Env.mk (.ok cpu) (.ok mi) tr (.ok ob) (.ok du) (.ok nr) (.ok pr) nt bt)
            s).1.netSentShown = nr.bytes_sent / 1024 ^ 2 - s.network_baseline.sent ∧
        (update_stats (Env.mk (.ok cpu) (.ok mi) tr (.ok ob) (.ok du) (.ok nr) (.ok pr) nt bt)
            s).1.netRecvShown = nr.bytes_recv / 1024 ^ 2 - s.network_baseline.recv) ∧
    (∀ (cpu : Rat) (mi : MemInfo) (tr : Except String Int) (ob : Option BatteryRaw)
        (du : DiskRaw) (nr1 nr2 : NetRaw) (pr : List (Except String ProcInfo))
        (nt bt : Rat) (s : MonitorState),
        nr1.bytes_sent <= nr2.bytes_sent → nr1.bytes_recv <= nr2.bytes_recv →
        (update_stats (Env.mk (.ok cpu) (.ok mi) tr (.ok ob) (.ok du) (.ok nr1) (.ok pr) nt bt)
            s).1.netSentShown
          <= (update_stats (Env.mk (.ok cpu) (.ok mi) tr (.ok ob) (.ok du) (.ok nr2) (.ok pr)
            nt bt) s).1.netSentShown ∧
        (update_stats (Env.mk (.ok cpu) (.ok mi) tr (.ok ob) (.ok du) (.ok nr1) (.ok pr) nt bt)
            s).1.netRecvShown
          <= (update_stats (Env.mk (.ok cpu) (.ok mi) tr (.ok ob) (.ok du) (.ok nr2) (.ok pr)
            nt bt) s).1.netRecvShown) := by
  refine ⟨fun first_net => rfl, ?_, ?_, ?_⟩
  · intro env s
    obtain ⟨cp, vm, tr, sb, du, ni, pi, nt, bt⟩ := env
    cases cp with
    | error msg => rfl
    | ok cpu =>
    cases vm with
    | error msg => rfl
    | ok mi =>
    cases sb with
    | error msg => rfl
    | ok ob =>
    cases du with
    | error msg =>
      cases ob with
      | none => rfl
      | some b => rfl
    | ok d =>
    cases ni with
    | error msg =>
      cases ob with
      | none => rfl
      | some b => rfl
    | ok n =>
    cases pi with
    | error msg =>
      cases ob with
      | none => rfl
      | some b => rfl
    | ok pr =>
      cases ob with
      | none => rw [update_stats_ok]
      | some b => rw [update_stats_ok]
  · intro cpu mi tr ob du nr pr nt bt s
    cases ob with
    | none => rw [update_stats_ok]; exact ⟨rfl, rfl⟩
    | some b => rw [update_stats_ok]; exact ⟨rfl, rfl⟩
  · intro cpu mi tr ob du nr1 nr2 pr nt bt s h1 h2
    cases ob with
    | none =>
      rw [update_stats_ok, update_stats_ok]
      exact ⟨sub_le_sub_right (by gcongr) _, sub_le_sub_right (by gcongr) _⟩
    | some b =>
      rw [update_stats_ok, update_stats_ok]
      exact ⟨sub_le_sub_right (by gcongr) _, sub_le_sub_right (by gcongr) _⟩

/-- Witness for C6: with counters rising from 1 MB to 5 MB sent and 1 MB to
2 MB received, the displayed deltas do not decrease. -/
theorem network_baseline_delta_witness :
    ((⟨1024 ^ 2, 1024 ^ 2⟩ : NetRaw).bytes_sent
        <= (⟨5 * 1024 ^ 2, 2 * 1024 ^ 2⟩ : NetRaw).bytes_sent) ∧
    ((⟨1024 ^ 2, 1024 ^ 2⟩ : NetRaw).bytes_recv
        <= (⟨5 * 1024 ^ 2, 2 * 1024 ^ 2⟩ : NetRaw).bytes_recv) ∧
    ((update_stats (Env.mk (.ok 25) (.ok ⟨40, 0, 0⟩) (.ok 45000) (.ok none)
          (.ok ⟨0, 0, 0, 0⟩) (.ok ⟨1024 ^ 2, 1024 ^ 2⟩) (.ok []) 0 0)
        (init_state ⟨0, 0⟩)).1.netSentShown
      <= (update_stats (Env.mk (.ok 25) (.ok ⟨40, 0, 0⟩) (.ok 45000) (.ok none)
          (.ok ⟨0, 0, 0, 0⟩) (.ok ⟨5 * 1024 ^ 2, 2 * 1024 ^ 2⟩) (.ok []) 0 0)
        (init_state ⟨0, 0⟩)).1.netSentShown ∧
     (update_stats (Env.mk (.ok 25) (.ok ⟨40, 0, 0⟩) (.ok 45000) (.ok none)
          (.ok ⟨0, 0, 0, 0⟩) (.ok ⟨1024 ^ 2, 1024 ^ 2⟩) (.ok []) 0 0)
        (init_state ⟨0, 0⟩)).1.netRecvShown
      <= (update_stats (Env.mk (.ok 25) (.ok ⟨40, 0, 0⟩) (.ok 45000) (.ok none)
          (.ok ⟨0, 0, 0, 0⟩) (.ok ⟨5 * 1024 ^ 2, 2 * 1024 ^ 2⟩) (.ok []) 0 0)
        (init_state ⟨0, 0⟩)).1.netRecvShown) :=
  ⟨by norm_num, by norm_num,
   network_baseline_delta.2.2.2 25 ⟨40, 0, 0⟩ (.ok 45000) none ⟨0, 0, 0, 0⟩
     ⟨1024 ^ 2, 1024 ^ 2⟩ ⟨5 * 1024 ^ 2, 2 * 1024 ^ 2⟩ [] 0 0 (init_state ⟨0, 0⟩)
     (by norm_num) (by norm_num)⟩

/-- C7 counterexample: at percent 30, discharging, the monitored value is
70, but its band is "elevated" (70 is below the 85 critical threshold), not
"critical" as the claim states. -/
theorem battery_band_counterexample :
    battery_monitored 30 false = 70 ∧
    band (battery_monitored 30 false) = Band.elevated ∧
    band (battery_monitored 30 false) ≠ Band.critical := by
  have hval : battery_monitored 30 false = 70 := by norm_num [battery_monitored]
  have hcol : update_color (battery_monitored 30 false) = "#FF9800" := by
    rw [hval]; norm_num [update_color]
  have hband : band (battery_monitored 30 false) = Band.elevated := by
    unfold band; rw [hcol]; decide
  exact ⟨hval, hband, by rw [hband]; decide⟩

/-- C7 (amended): the battery bar's monitored value is `100 - percent` when
discharging and 0 when plugged in, and that value is what the bar's color
function receives; for percent 30 discharging the value is 70 whose band is
"elevated", and plugged in the value is 0 whose band is "nominal". -/
theorem battery_urgency_amended (p : Rat) (cpu : Rat) (mi : MemInfo)
    (tr : Except String Int) (braw : BatteryRaw) (du : DiskRaw) (nr : NetRaw)
    (pr : List (Except String ProcInfo)) (nt bt : Rat) (s : MonitorState) :
    battery_monitored p false = 100 - p ∧
    battery_monitored p true = 0 ∧
    battery_monitored 30 false = 70 ∧
    band 70 = Band.elevated ∧
    battery_monitored 30 true = 0 ∧
    band 0 = Band.nominal ∧
    (update_stats (Env.mk (.ok cpu) (.ok mi) tr (.ok (some braw)) (.ok du) (.ok nr)
        (.ok pr) nt bt) s).1.batteryBarColor
      = update_color (battery_monitored braw.percent braw.power_plugged) := by
  have hb70 : band 70 = Band.elevated := by
    have hcol : update_color 70 = "#FF9800" := by norm_num [update_color]
    unfold band; rw [hcol]; decide
  have hb0 : band 0 = Band.nominal := by
    have hcol : update_color 0 = "#4CAF50" := by norm_num [update_color]
    unfold band; rw [hcol]; decide
  refine ⟨rfl, rfl, by norm_num [battery_monitored], hb70, rfl, hb0, ?_⟩
  rw [update_stats_ok]

/-- C8: when the temperature source raises, `get_cpu_temp` returns 0.0, no
exception propagates, the tick completes, and every other field is
populated from its source normally. -/
theorem temp_fallback_zero (cpu : Rat) (mi : MemInfo) (e : String)
    (ob : Option BatteryRaw) (du : DiskRaw) (nr : NetRaw)
    (pr : List (Except String ProcInfo)) (nt bt : Rat) (s : MonitorState) :
    get_cpu_temp (Except.error e) = 0 ∧
    (update_stats (Env.mk (.ok cpu) (.ok mi) (.error e) (.ok ob) (.ok du) (.ok nr) (.ok pr)
        nt bt) s).2 = none ∧
    (update_stats (Env.mk (.ok cpu) (.ok mi) (.error e) (.ok ob) (.ok du) (.ok nr) (.ok pr)
        nt bt) s).1.tempShown = 0 ∧
    (update_stats (Env.mk (.ok cpu) (.ok mi) (.error e) (.ok ob) (.ok du) (.ok nr) (.ok pr)
        nt bt) s).1.cpuShown = cpu ∧
    (update_stats (Env.mk (.ok cpu) (.ok mi) (.error e) (.ok ob) (.ok du) (.ok nr) (.ok pr)
        nt bt) s).1.ramShown = mi.percent ∧
    (update_stats (Env.mk (.ok cpu) (.ok mi) (.error e) (.ok ob) (.ok du) (.ok nr) (.ok pr)
        nt bt) s).1.diskBarColor = update_color du.percent ∧
    (update_stats (Env.mk (.ok cpu) (.ok mi) (.error e) (.ok ob) (.ok du) (.ok nr) (.ok pr)
        nt bt) s).1.netRecvShown = nr.bytes_recv / 1024 ^ 2 - s.network_baseline.recv ∧
    (update_stats (Env.mk (.ok cpu) (.ok mi) (.error e) (.ok ob) (.ok du) (.ok nr) (.ok pr)
        nt bt) s).1.processTable = (sortByCpuDesc (pr.filterMap Except.toOption)).take 10 := by
  cases ob with
  | none =>
    rw [update_stats_ok]
    exact ⟨rfl, rfl, rfl, rfl, rfl, rfl, rfl, rfl⟩
  | some b =>
    rw [update_stats_ok]
    exact ⟨rfl, rfl, rfl, rfl, rfl, rfl, rfl, rfl⟩

/-- C9: for a pid that refers to no process (`ProcessLookupError`),
`kill_process` returns `(false, "Process <pid> not found")` and
`kill_selected_process` appends that message, timestamped, to the action
log. -/
theorem kill_missing_process_logged (pid : Int) (log : List String) (timestamp : String) :
    kill_process pid KillResult.processLookupError
        = (false, s!"Process {pid} not found") ∧
    (kill_selected_process log timestamp pid KillResult.processLookupError).1
        = (false, s!"Process {pid} not found") ∧
    (kill_selected_process log timestamp pid KillResult.processLookupError).2
        = log ++ [s!"[{timestamp}] Process {pid} not found"] := by
  have h2 : ∀ s : String, toString s = s := fun s => rfl
  have h3 : ∀ s : String, s ++ "" = s := fun s => by simp
  refine ⟨rfl, rfl, ?_⟩
  simp [kill_selected_process, kill_process, log_message, h2, h3, String.append_assoc]
  rw [← String.append_assoc "] " "Process "]
  rfl

/-- C10: `kill_process` is a total function of the pid and the kill
outcome: success yields the success pair, `PermissionError` the
permission-denied pair, `ProcessLookupError` the not-found pair, and any
other exception an `ok = false` pair; `ok = true` exactly on success. -/
theorem kill_process_total (pid : Int) (outcome : KillResult) :
    ((kill_process pid outcome).1 = true ↔ outcome = KillResult.ok) ∧
    kill_process pid KillResult.ok = (true, s!"Process {pid} terminated successfully") ∧
    kill_process pid KillResult.permissionError
        = (false, s!"Permission denied to kill process {pid}") ∧
    (kill_process pid KillResult.processLookupError).1 = false ∧
    (∀ msg : String, kill_process pid (KillResult.otherError msg)
        = (false, s!"Failed to kill process: {msg}")) := by
  refine ⟨?_, rfl, rfl, rfl, fun msg => rfl⟩
  cases outcome with
  | ok => simp [kill_process]
  | processLookupError =>
    exact iff_of_false (by simp [kill_process]) (fun h => KillResult.noConfusion h)
  | permissionError =>
    exact iff_of_false (by simp [kill_process]) (fun h => KillResult.noConfusion h)
  | otherError msg =>
    exact iff_of_false (by simp [kill_process]) (fun h => KillResult.noConfusion h)

end Lonitor
